import Mathlib

/-!
Verification of the convenience-store analytics dashboard (streamlit1.py).

Tables are modelled as Lean lists of records mirroring the parquet schemas
that the program reads.  Monetary and quantity columns are modelled over ℤ
(every claim under study is independent of fractional values); a polars
float division `a / b` is modelled as an `Option ℚ`, where `none` stands
for the undefined result (NaN / inf) produced when the denominator is zero.
External HTTP calls (census geocoder, ACS endpoints) are modelled as oracle
functions passed in as parameters; `none` stands for any per-call failure
(network error, timeout, missing response field).
-/

/-- Polars float division: defined quotient when the denominator is nonzero,
`none` (NaN / inf, an undefined value) when it is zero.  Mirrors
`pl.col(a) / pl.col(b)` applied to summed integer columns. -/
def pdiv (a b : ℤ) : Option ℚ :=
  if b = 0 then none else some ((a : ℚ) / (b : ℚ))

/-- Polars float division by a row count (`n_unique` result). -/
def pdivN (a : ℤ) (n : ℕ) : Option ℚ :=
  if n = 0 then none else some ((a : ℚ) / (n : ℚ))

/-- `group_by` on a keyed list: one entry per distinct key, paired with the
rows carrying that key.  Group contents are deterministic; polars emits the
groups in no specified order, which the relational top-5 semantics below
accounts for. -/
def groupBy {α κ : Type} [DecidableEq κ] (key : α → κ) (l : List α) :
    List (κ × List α) :=
  ((l.map key).dedup).map (fun k => (k, l.filter (fun r => decide (key r = k))))

/-- Every group produced by `groupBy` contains at least one row. -/
theorem groupBy_mem_ne_nil {α κ : Type} [DecidableEq κ] (key : α → κ)
    (l : List α) (g : κ × List α) (hg : g ∈ groupBy key l) : g.2 ≠ [] := by
  rcases List.mem_map.mp hg with ⟨k, hk, rfl⟩
  rcases List.mem_map.mp (List.mem_dedup.mp hk) with ⟨r, hr, hkey⟩
  have hmem : r ∈ l.filter (fun r => decide (key r = k)) :=
    List.mem_filter.mpr ⟨hr, decide_eq_true hkey⟩
  show l.filter (fun r => decide (key r = k)) ≠ []
  intro hnil
  rw [hnil] at hmem
  exact List.not_mem_nil r hmem

/-- Timestamp of a transaction set (`DATE_TIME`), abstracted to the calendar
fields the program extracts with `dt.year()` / `dt.month()`. -/
structure Timestamp where
  year : ℤ
  month : ℕ
deriving DecidableEq

/-- One row of the daily-aggregate table `cstore_transactions_daily_agg`. -/
structure DailyRow where
  store_id : ℤ
  category : Option String
  subcategory : Option String
  brand : Option String
  skupos_description : Option String
  calendar_year : ℤ
  calendar_month : ℕ
  week : Option ℕ
  total_revenue_amount : ℤ
  quantity : ℤ
  transaction_count : ℤ
deriving DecidableEq

/-- One row of the transaction-set table `cstore_transaction_sets`. -/
structure SetRow where
  transaction_set_id : ℕ
  store_id : ℤ
  date_time : Timestamp
  payment_type : Option String
  grand_total_amount : ℤ
deriving DecidableEq

/-- One row of the transaction-item table. -/
structure ItemRow where
  transaction_set_id : ℕ
  gtin : ℕ
  unit_price : ℤ
  unit_quantity : ℤ
  grand_total_amount : ℤ
deriving DecidableEq

/-- `get_unified_data`, daily branch: filter by month membership, and by
exact year equality only when a year filter is present. -/
def filteredDaily (daily : List DailyRow) (y : Option ℤ) (ms : List ℕ) :
    List DailyRow :=
  match y with
  | none => daily.filter (fun r => decide (r.calendar_month ∈ ms))
  | some yv =>
      daily.filter (fun r =>
        decide (r.calendar_year = yv) && decide (r.calendar_month ∈ ms))

/-- `get_unified_data`: `sets.with_columns` deriving year/month columns from
`DATE_TIME`. -/
def setsWithDate (sets : List SetRow) : List (SetRow × ℤ × ℕ) :=
  sets.map (fun s => (s, s.date_time.year, s.date_time.month))

/-- `get_unified_data`, transaction-set branch: derive year/month from the
timestamp, filter, then drop the derived columns (the result rows are plain
`SetRow`s again). -/
def filteredSets (sets : List SetRow) (y : Option ℤ) (ms : List ℕ) :
    List SetRow :=
  let swd : List (SetRow × ℤ × ℕ) := setsWithDate sets
  let fs : List (SetRow × ℤ × ℕ) :=
    match y with
    | none => swd.filter (fun p => decide (p.2.2 ∈ ms))
    | some yv =>
        swd.filter (fun p => decide (p.2.1 = yv) && decide (p.2.2 ∈ ms))
  fs.map (fun p => p.1)

/-- The period-filter predicate on a transaction set, phrased directly on the
row timestamp. -/
def setKeep (y : Option ℤ) (ms : List ℕ) (s : SetRow) : Bool :=
  match y with
  | none => decide (s.date_time.month ∈ ms)
  | some yv => decide (s.date_time.year = yv) && decide (s.date_time.month ∈ ms)

/-- `valid_txn_ids`: distinct transaction-set identifiers of the filtered
transaction-set table. -/
def validTxnIds (sets : List SetRow) (y : Option ℤ) (ms : List ℕ) : List ℕ :=
  ((filteredSets sets y ms).map (fun s => s.transaction_set_id)).dedup

/-- `filtered_items`: inner join of the item table against the (distinct,
single-column) `valid_txn_ids` key table; with a deduplicated key table this
is exactly a keep-if-key-present filter. -/
def filteredItems (items : List ItemRow) (sets : List SetRow) (y : Option ℤ)
    (ms : List ℕ) : List ItemRow :=
  items.filter (fun it => decide (it.transaction_set_id ∈ validTxnIds sets y ms))

theorem tagged_filter_map {α γ : Type} (tag : α → γ) (back : γ → α)
    (hb : ∀ a, back (tag a) = a) (p : γ → Bool) :
    ∀ l : List α, ((l.map tag).filter p).map back
      = l.filter (fun a => p (tag a)) := by
  intro l
  induction l with
  | nil => rfl
  | cons a t ih =>
      by_cases h : p (tag a) = true
      · simp [h, ih, hb]
      · simp only [List.map_cons, List.filter_cons]
        rw [if_neg (by simp [h]), if_neg (by simp [h])]
        exact ih

/-- The sets branch of `get_unified_data` equals a direct filter on the
original rows. -/
theorem filteredSets_eq_filter (sets : List SetRow) (y : Option ℤ)
    (ms : List ℕ) : filteredSets sets y ms = sets.filter (setKeep y ms) := by
  cases y with
  | none =>
      simpa [filteredSets, setsWithDate, setKeep] using
        tagged_filter_map
          (fun s : SetRow => (s, s.date_time.year, s.date_time.month))
          (fun p => p.1) (fun _ => rfl)
          (fun p => decide (p.2.2 ∈ ms)) sets
  | some yv =>
      simpa [filteredSets, setsWithDate, setKeep] using
        tagged_filter_map
          (fun s : SetRow => (s, s.date_time.year, s.date_time.month))
          (fun p => p.1) (fun _ => rfl)
          (fun p => decide (p.2.1 = yv) && decide (p.2.2 ∈ ms)) sets

/-- Claim C2: for every input and month set, the unified filter keeps exactly
the Daily Aggregate and Transaction Set rows whose calendar month is in the
month set, additionally requiring exact calendar-year equality when a year is
given; Transaction Set year/month are derived from the row timestamp, and the
returned transaction-set table consists of plain original rows (the derived
columns are dropped: the result is literally a filter of the input rows). -/
theorem unified_filter_period (daily : List DailyRow) (sets : List SetRow)
    (y : Option ℤ) (ms : List ℕ) :
    (∀ r, r ∈ filteredDaily daily y ms ↔
      r ∈ daily ∧ r.calendar_month ∈ ms ∧
        ∀ yv, y = some yv → r.calendar_year = yv) ∧
    (∀ s, s ∈ filteredSets sets y ms ↔
      s ∈ sets ∧ s.date_time.month ∈ ms ∧
        ∀ yv, y = some yv → s.date_time.year = yv) ∧
    filteredSets sets y ms = sets.filter (setKeep y ms) := by
  refine ⟨?_, ?_, filteredSets_eq_filter sets y ms⟩
  · intro r
    cases y with
    | none => simp [filteredDaily, List.mem_filter]
    | some yv =>
        simp only [filteredDaily, List.mem_filter, Bool.and_eq_true,
          decide_eq_true_eq, Option.some.injEq, forall_eq']
        tauto
  · intro s
    rw [filteredSets_eq_filter]
    cases y with
    | none => simp [setKeep, List.mem_filter]
    | some yv =>
        simp only [setKeep, List.mem_filter, Bool.and_eq_true,
          decide_eq_true_eq, Option.some.injEq, forall_eq']
        tauto

/-- Concrete input for exercising the unified filter. -/
def exSets : List SetRow :=
  [ { transaction_set_id := 1, store_id := 10,
      date_time := { year := 2023, month := 1 },
      payment_type := some "CASH", grand_total_amount := 5 },
    { transaction_set_id := 2, store_id := 11,
      date_time := { year := 2022, month := 3 },
      payment_type := some "CREDIT", grand_total_amount := 7 } ]

/-- Concrete item table for exercising the unified filter. -/
def exItems : List ItemRow :=
  [ { transaction_set_id := 1, gtin := 100, unit_price := 2,
      unit_quantity := 1, grand_total_amount := 2 },
    { transaction_set_id := 9, gtin := 101, unit_price := 3,
      unit_quantity := 2, grand_total_amount := 6 } ]

/-- Witness for Claim C2: the unified filter evaluated at a concrete year
and month set. -/
theorem unified_filter_period_witness :
    filteredSets exSets (some 2023) [1, 2]
      = exSets.filter (setKeep (some 2023) [1, 2]) :=
  (unified_filter_period [] exSets (some 2023) [1, 2]).2.2

/-- Claim C1: every row of `filtered_items` carries a transaction-set
identifier that appears in `filtered_sets` (the item table is inner-joined
against the distinct identifiers of the filtered transaction-set table). -/
theorem filtered_items_ids_in_sets (items : List ItemRow) (sets : List SetRow)
    (y : Option ℤ) (ms : List ℕ) (it : ItemRow)
    (h : it ∈ filteredItems items sets y ms) :
    it.transaction_set_id
      ∈ (filteredSets sets y ms).map (fun s => s.transaction_set_id) := by
  have h' := List.mem_filter.mp h
  exact List.mem_dedup.mp (of_decide_eq_true h'.2)

/-- The item row of `exItems` whose transaction set survives the filter. -/
def exItem0 : ItemRow :=
  { transaction_set_id := 1, gtin := 100, unit_price := 2,
    unit_quantity := 1, grand_total_amount := 2 }

/-- Witness for Claim C1: on the concrete tables, the surviving item's
identifier appears among the filtered transaction-set identifiers. -/
theorem filtered_items_ids_in_sets_witness :
    (exItem0 ∈ filteredItems exItems exSets none [1, 3]) ∧
    exItem0.transaction_set_id
      ∈ (filteredSets exSets none [1, 3]).map (fun s => s.transaction_set_id) :=
  ⟨by decide,
   filtered_items_ids_in_sets exItems exSets none [1, 3] exItem0 (by decide)⟩

/-- Checks whether the pattern is an initial run of the text (character
lists). -/
def leadMatch : List Char → List Char → Bool
  | [], _ => true
  | _ :: _, [] => false
  | a :: ps, b :: ss => a == b && leadMatch ps ss

/-- Substring test on character lists. -/
def hasSub (pat : List Char) : List Char → Bool
  | [] => pat.isEmpty
  | c :: t => leadMatch pat (c :: t) || hasSub pat t

/-- Case-insensitive substring test, mirroring the regex
`str.contains("(?i)PAT")` calls (the patterns used are already upper-case). -/
def containsCI (s : String) (pat : String) : Bool :=
  hasSub pat.data (s.data.map Char.toUpper)

/-- A null-propagating `str.contains` on a nullable column: a null value
yields a null comparison, which a polars filter treats as not-kept. -/
def optContainsCI (o : Option String) (pat : String) : Bool :=
  match o with
  | some s => containsCI s pat
  | none => false

/-- The `CATEGORY != "FUEL"` comparison of the top-5 page: a null category
compares to null, which the filter drops. -/
def catNotFuel (r : DailyRow) : Bool :=
  match r.category with
  | some c => decide (c ≠ "FUEL")
  | none => false

/-- The `CATEGORY.is_in(selected)` membership of the top-5 page. -/
def catInSel (r : DailyRow) (sel : List String) : Bool :=
  match r.category with
  | some c => decide (c ∈ sel)
  | none => false

/-- `category_filtered` on the top-5 page: an empty user selection falls back
to the plain fuel-exclusion filter, a non-empty selection additionally
restricts to the selected categories. -/
def categoryFiltered (df : List DailyRow) (sel : List String) : List DailyRow :=
  if sel.isEmpty then df.filter catNotFuel
  else df.filter (fun r => catNotFuel r && catInSel r sel)

/-- The `categories` widget options: distinct non-null categories of the
filtered daily table, fuel excluded.  The page also sorts this list for
display; ordering is irrelevant to every downstream membership test and is
not modelled. -/
def nonFuelCats (df : List DailyRow) : List String :=
  (df.filterMap (fun r =>
    match r.category with
    | some c => if c = "FUEL" then none else some c
    | none => none)).dedup

/-- Claim C9: an empty category selection falls back to all non-fuel rows,
which coincides with selecting every non-excluded category; fuel rows are
excluded under every selection. -/
theorem category_empty_fallback (df : List DailyRow) :
    categoryFiltered df [] = df.filter catNotFuel
    ∧ categoryFiltered df [] = categoryFiltered df (nonFuelCats df)
    ∧ ∀ sel r, r ∈ categoryFiltered df sel → ¬ r.category = some "FUEL" := by
  refine ⟨rfl, ?_, ?_⟩
  · by_cases h : (nonFuelCats df).isEmpty
    · simp [categoryFiltered, h]
    · have key : ∀ r ∈ df,
          catNotFuel r = (catNotFuel r && catInSel r (nonFuelCats df)) := by
        intro r hr
        cases hc : r.category with
        | none => simp [catNotFuel, hc]
        | some c =>
            by_cases hf : c = "FUEL"
            · simp [catNotFuel, hc, hf]
            · have hcmem : c ∈ nonFuelCats df := by
                simp only [nonFuelCats, List.mem_dedup, List.mem_filterMap]
                exact ⟨r, hr, by simp [hc, hf]⟩
              simp [catNotFuel, catInSel, hc, hf, hcmem]
      simp only [categoryFiltered, h, if_neg, List.isEmpty_nil, if_pos]
      exact List.filter_congr key
  · intro sel r hr
    have hcnf : catNotFuel r = true := by
      by_cases hs : sel.isEmpty <;>
        simp only [categoryFiltered, hs, if_pos, if_neg, Bool.false_eq_true,
          not_false_eq_true, List.mem_filter, Bool.and_eq_true] at hr <;>
        tauto
    cases hc : r.category with
    | none => simp [catNotFuel, hc] at hcnf
    | some c =>
        simp only [catNotFuel, hc, decide_eq_true_eq] at hcnf
        simp [hcnf]

/-- Daily table for the C9 witness: one snack row, one fuel row. -/
def w9df : List DailyRow :=
  [ { store_id := 1, category := some "SNACK", subcategory := none,
      brand := some "B", skupos_description := some "D",
      calendar_year := 2023, calendar_month := 1, week := some 1,
      total_revenue_amount := 5, quantity := 2, transaction_count := 1 },
    { store_id := 1, category := some "FUEL", subcategory := none,
      brand := some "F", skupos_description := some "G",
      calendar_year := 2023, calendar_month := 1, week := some 1,
      total_revenue_amount := 50, quantity := 10, transaction_count := 3 } ]

/-- The snack row of `w9df`. -/
def w9row : DailyRow :=
  { store_id := 1, category := some "SNACK", subcategory := none,
    brand := some "B", skupos_description := some "D",
    calendar_year := 2023, calendar_month := 1, week := some 1,
    total_revenue_amount := 5, quantity := 2, transaction_count := 1 }

/-- Witness for Claim C9: on the concrete table, a row surviving a non-empty
selection is not a fuel row. -/
theorem category_empty_fallback_witness :
    (w9row ∈ categoryFiltered w9df ["SNACK"]) ∧ ¬ w9row.category = some "FUEL" :=
  ⟨by decide, (category_empty_fallback w9df).2.2 ["SNACK"] w9row (by decide)⟩

/-- One row of the `top5_overall` aggregate. -/
structure AggRow where
  brand : String
  skupos_description : String
  category : String
  total_revenue : ℤ
  total_units : ℤ
  total_transactions : ℤ
  avg_price : Option ℚ
deriving DecidableEq

/-- Null-exclusion filter of `top5_overall`: brand, description and category
must all be non-null. -/
def notNullBDC (r : DailyRow) : Bool :=
  r.brand.isSome && r.skupos_description.isSome && r.category.isSome

/-- Grouping key of `top5_overall` (applied after the null-exclusion
filter, so the defaults are never read). -/
def top5Key (r : DailyRow) : String × String × String :=
  (r.brand.getD "", r.skupos_description.getD "", r.category.getD "")

/-- The aggregate row of one (brand, description, category) group: summed
revenue, units and transaction count, plus the unguarded
`total_revenue / total_units` average price. -/
def aggOf (g : (String × String × String) × List DailyRow) : AggRow :=
  { brand := g.1.1
    skupos_description := g.1.2.1
    category := g.1.2.2
    total_revenue := (g.2.map (fun r => r.total_revenue_amount)).sum
    total_units := (g.2.map (fun r => r.quantity)).sum
    total_transactions := (g.2.map (fun r => r.transaction_count)).sum
    avg_price := pdiv ((g.2.map (fun r => r.total_revenue_amount)).sum)
      ((g.2.map (fun r => r.quantity)).sum) }

/-- The aggregated (pre-ranking) rows of `top5_overall`, in a canonical
order; polars emits the groups in no specified order, handled by
`top5Valid`. -/
def aggRows (df : List DailyRow) : List AggRow :=
  (groupBy top5Key (df.filter notNullBDC)).map aggOf

/-- Descending-revenue comparison used by `sort("total_revenue",
descending=True)`. -/
def revGe (a b : AggRow) : Prop := b.total_revenue ≤ a.total_revenue

instance : DecidableRel revGe :=
  fun a b => decidable_of_iff (b.total_revenue ≤ a.total_revenue) Iff.rfl

/-- Possible outputs of `top5_overall` on a filtered daily table: polars
group order and its sort are not stable, so any revenue-descending
arrangement of the aggregated groups may be produced; the output is the
first five rows of such an arrangement. -/
def top5Valid (df : List DailyRow) (out : List AggRow) : Prop :=
  ∃ p : List AggRow, p.Perm (aggRows df) ∧ p.Sorted revGe ∧ out = p.take 5

/-- One row of the `bev_perf` aggregate. -/
structure BevRow where
  brand : String
  revenue : ℤ
  units : ℤ
  transactions : ℤ
  rev_per_unit : Option ℚ
  rev_per_transaction : Option ℚ
deriving DecidableEq

/-- Row filter of `bev_perf`: non-null category and brand, and a
case-insensitive BEVERAGE/DRINK substring match on category or subcategory.
A null subcategory makes its two contains-conditions null, which cannot make
the disjunction true; since the category is forced non-null, this is exactly
a false contribution. -/
def bevPred (r : DailyRow) : Bool :=
  r.category.isSome && r.brand.isSome &&
    (optContainsCI r.category "BEVERAGE" || optContainsCI r.category "DRINK" ||
     optContainsCI r.subcategory "BEVERAGE" ||
     optContainsCI r.subcategory "DRINK")

/-- The per-brand beverage aggregate of `bev_perf` before the
transaction-count threshold filter and the ascending sort: summed revenue,
units, transactions, plus the unguarded revenue/units and
revenue/transactions derived columns. -/
def bevAgg (df : List DailyRow) : List BevRow :=
  (groupBy (fun r => r.brand.getD "") (df.filter bevPred)).map (fun g =>
    { brand := g.1
      revenue := (g.2.map (fun r => r.total_revenue_amount)).sum
      units := (g.2.map (fun r => r.quantity)).sum
      transactions := (g.2.map (fun r => r.transaction_count)).sum
      rev_per_unit := pdiv ((g.2.map (fun r => r.total_revenue_amount)).sum)
        ((g.2.map (fun r => r.quantity)).sum)
      rev_per_transaction :=
        pdiv ((g.2.map (fun r => r.total_revenue_amount)).sum)
          ((g.2.map (fun r => r.transaction_count)).sum) })

/-- Daily table with a zero-unit group: one snack row whose summed quantity
is zero. -/
def cdf3 : List DailyRow :=
  [ { store_id := 1, category := some "SNACK", subcategory := none,
      brand := some "B", skupos_description := some "D",
      calendar_year := 2023, calendar_month := 1, week := some 1,
      total_revenue_amount := 5, quantity := 0, transaction_count := 1 } ]

/-- The aggregate row `cdf3` produces: its average price is the undefined
division result, not a defined sentinel. -/
def crow3 : AggRow :=
  { brand := "B", skupos_description := "D", category := "SNACK",
    total_revenue := 5, total_units := 0, total_transactions := 1,
    avg_price := none }

/-- Counterexample to Claim C3: the division in `top5_overall` is not
guarded.  On a concrete zero-unit group the aggregate row reaching the
display carries an undefined (`none`, i.e. NaN/inf) average price, not a
defined sentinel. -/
theorem zero_units_not_guarded :
    aggRows cdf3 = [crow3] ∧ crow3.total_units = 0 ∧ crow3.avg_price = none
      ∧ top5Valid cdf3 [crow3] := by
  refine ⟨by decide, rfl, rfl, ⟨[crow3], ?_, by decide, rfl⟩⟩
  have h : aggRows cdf3 = [crow3] := by decide
  rw [h]

/-- Claim C3 as amended: in both the top-5 product aggregation and the
beverage brand aggregation the revenue-by-units division is unguarded, and a
zero-unit group yields the undefined division value (`none`, standing for
NaN/inf) in its derived per-unit column. -/
theorem zero_units_avg_undefined (df : List DailyRow) :
    (∀ r ∈ aggRows df, r.total_units = 0 → r.avg_price = none) ∧
    (∀ b ∈ bevAgg df, b.units = 0 → b.rev_per_unit = none) := by
  constructor
  · intro r hr h0
    rcases List.mem_map.mp hr with ⟨g, _, rfl⟩
    simp only [aggOf] at h0 ⊢
    simp [pdiv, h0]
  · intro b hb h0
    rcases List.mem_map.mp hb with ⟨g, _, rfl⟩
    simp only at h0 ⊢
    simp [pdiv, h0]

/-- Witness for the amended Claim C3: applied to the concrete zero-unit
table. -/
theorem zero_units_avg_undefined_witness :
    (crow3 ∈ aggRows cdf3) ∧ crow3.avg_price = none :=
  ⟨by decide, (zero_units_avg_undefined cdf3).1 crow3 (by decide) rfl⟩

/-- Daily table producing two aggregate groups with tied summed revenue. -/
def cdf8 : List DailyRow :=
  [ { store_id := 1, category := some "C", subcategory := none,
      brand := some "A", skupos_description := some "DA",
      calendar_year := 2023, calendar_month := 1, week := some 1,
      total_revenue_amount := 5, quantity := 1, transaction_count := 1 },
    { store_id := 1, category := some "C", subcategory := none,
      brand := some "B", skupos_description := some "DB",
      calendar_year := 2023, calendar_month := 1, week := some 1,
      total_revenue_amount := 5, quantity := 1, transaction_count := 1 } ]

/-- First aggregate group of `cdf8`. -/
def gA8 : AggRow :=
  { brand := "A", skupos_description := "DA", category := "C",
    total_revenue := 5, total_units := 1, total_transactions := 1,
    avg_price := pdiv 5 1 }

/-- Second aggregate group of `cdf8`. -/
def gB8 : AggRow :=
  { brand := "B", skupos_description := "DB", category := "C",
    total_revenue := 5, total_units := 1, total_transactions := 1,
    avg_price := pdiv 5 1 }

/-- Counterexample to Claim C8: with tied revenues the `top5_overall`
pipeline (whose group emission and sort are not order-stable) admits two
distinct outputs on the same input, so identical order among revenue ties is
not guaranteed. -/
theorem top5_tie_two_outputs :
    top5Valid cdf8 [gA8, gB8] ∧ top5Valid cdf8 [gB8, gA8]
      ∧ ([gA8, gB8] : List AggRow) ≠ [gB8, gA8] := by
  have hagg : aggRows cdf8 = [gA8, gB8] := rfl
  refine ⟨⟨[gA8, gB8], ?_, ?_, rfl⟩, ⟨[gB8, gA8], ?_, ?_, rfl⟩, ?_⟩
  · rw [hagg]
  · show List.Sorted revGe [gA8, gB8]
    simp [List.Sorted, List.pairwise_cons, revGe, gA8, gB8]
  · rw [hagg]
    exact List.Perm.swap gA8 gB8 []
  · show List.Sorted revGe [gB8, gA8]
    simp [List.Sorted, List.pairwise_cons, revGe, gA8, gB8]
  · intro h
    have : gA8 = gB8 := by injection h
    have : gA8.brand = gB8.brand := by rw [this]
    simp [gA8, gB8] at this

/-- Two revenue-descending sorted arrangements of the same rows coincide
when no two rows share a summed revenue. -/
theorem sorted_perm_eq :
    ∀ l₁ l₂ : List AggRow, l₁.Perm l₂ → l₁.Sorted revGe → l₂.Sorted revGe →
      l₁.Pairwise (fun a b => a.total_revenue ≠ b.total_revenue) → l₁ = l₂ := by
  intro l₁
  induction l₁ with
  | nil =>
      intro l₂ hp _ _ _
      exact (hp.symm.eq_nil).symm
  | cons a t ih =>
      intro l₂ hp hs₁ hs₂ hd
      cases l₂ with
      | nil => simp at hp
      | cons b t₂ =>
          by_cases hab : a = b
          · subst hab
            have ht := ih t₂ hp.cons_inv hs₁.of_cons hs₂.of_cons hd.of_cons
            rw [ht]
          · exfalso
            have hamem : a ∈ b :: t₂ := hp.subset (List.mem_cons_self a t)
            have hbmem : b ∈ a :: t := hp.symm.subset (List.mem_cons_self b t₂)
            have hat₂ : a ∈ t₂ := by
              rcases List.mem_cons.mp hamem with h | h
              · exact absurd h hab
              · exact h
            have hbt : b ∈ t := by
              rcases List.mem_cons.mp hbmem with h | h
              · exact absurd h.symm hab
              · exact h
            have h₁ : revGe a b := List.rel_of_sorted_cons hs₁ b hbt
            have h₂ : revGe b a := List.rel_of_sorted_cons hs₂ a hat₂
            have hne : a.total_revenue ≠ b.total_revenue :=
              (List.pairwise_cons.mp hd).1 b hbt
            exact hne (le_antisymm h₂ h₁)

/-- Claim C8 as amended: the top-5 aggregation is deterministic — any two
runs on the same filtered input produce identical ranked output — provided
no two aggregate groups tie on summed revenue; with ties the order among the
tied rows is not specified (see the counterexample). -/
theorem top5_deterministic_when_distinct (df : List DailyRow)
    (out₁ out₂ : List AggRow)
    (hd : (aggRows df).Pairwise (fun a b => a.total_revenue ≠ b.total_revenue))
    (h₁ : top5Valid df out₁) (h₂ : top5Valid df out₂) : out₁ = out₂ := by
  rcases h₁ with ⟨p₁, hp₁, hs₁, rfl⟩
  rcases h₂ with ⟨p₂, hp₂, hs₂, rfl⟩
  have hd₁ : p₁.Pairwise (fun a b => a.total_revenue ≠ b.total_revenue) :=
    (hp₁.pairwise_iff (fun h => Ne.symm h)).mpr hd
  rw [sorted_perm_eq p₁ p₂ (hp₁.trans hp₂.symm) hs₁ hs₂ hd₁]

/-- Daily table with two aggregate groups of distinct revenues. -/
def w8df : List DailyRow :=
  [ { store_id := 1, category := some "C", subcategory := none,
      brand := some "A", skupos_description := some "DA",
      calendar_year := 2023, calendar_month := 1, week := some 1,
      total_revenue_amount := 7, quantity := 1, transaction_count := 1 },
    { store_id := 1, category := some "C", subcategory := none,
      brand := some "B", skupos_description := some "DB",
      calendar_year := 2023, calendar_month := 1, week := some 1,
      total_revenue_amount := 5, quantity := 1, transaction_count := 1 } ]

/-- First aggregate group of `w8df` (revenue 7). -/
def w8gA : AggRow :=
  { brand := "A", skupos_description := "DA", category := "C",
    total_revenue := 7, total_units := 1, total_transactions := 1,
    avg_price := pdiv 7 1 }

/-- Second aggregate group of `w8df` (revenue 5). -/
def w8gB : AggRow :=
  { brand := "B", skupos_description := "DB", category := "C",
    total_revenue := 5, total_units := 1, total_transactions := 1,
    avg_price := pdiv 5 1 }

/-- A valid top-5 output of `w8df`. -/
theorem w8_valid : top5Valid w8df [w8gA, w8gB] := by
  have hagg : aggRows w8df = [w8gA, w8gB] := rfl
  refine ⟨[w8gA, w8gB], ?_, ?_, rfl⟩
  · rw [hagg]
  · show List.Sorted revGe [w8gA, w8gB]
    simp [List.Sorted, List.pairwise_cons, revGe, w8gA, w8gB]

/-- Witness for the amended Claim C8: with the concrete distinct-revenue
table, the determinism theorem applies. -/
theorem top5_deterministic_witness :
    (aggRows w8df).Pairwise
      (fun a b => a.total_revenue ≠ b.total_revenue) ∧
    ([w8gA, w8gB] : List AggRow) = [w8gA, w8gB] :=
  ⟨by simp [aggRows, groupBy, w8df, aggOf, top5Key, notNullBDC, w8gA, w8gB],
   top5_deterministic_when_distinct w8df [w8gA, w8gB] [w8gA, w8gB]
     (by simp [aggRows, groupBy, w8df, aggOf, top5Key, notNullBDC, w8gA, w8gB])
     w8_valid w8_valid⟩

/-- One row of `filtered_payments`: a filtered transaction set joined with
an item row and left-joined product data. -/
structure PayRow where
  payment_type : String
  transaction_set_id : ℕ
  grand_total_amount : ℤ
  unit_quantity : ℤ
  category : Option String
  skupos_description : Option String
deriving DecidableEq

/-- One row of `payment_summary`. -/
structure PaySummaryRow where
  payment_type : String
  num_transactions : ℕ
  total_spend : ℤ
  avg_ticket : Option ℚ
  total_items : ℤ
  avg_items_per_txn : Option ℚ
deriving DecidableEq

/-- `payment_summary`: group the joined rows by payment type; per group the
distinct transaction-set count, summed spend, mean ticket and summed item
quantity, plus the derived items-per-transaction division. -/
def paymentSummary (rows : List PayRow) : List PaySummaryRow :=
  (groupBy (fun r => r.payment_type) rows).map (fun g =>
    { payment_type := g.1
      num_transactions := ((g.2.map (fun r => r.transaction_set_id)).dedup).length
      total_spend := (g.2.map (fun r => r.grand_total_amount)).sum
      avg_ticket :=
        pdivN ((g.2.map (fun r => r.grand_total_amount)).sum) g.2.length
      total_items := (g.2.map (fun r => r.unit_quantity)).sum
      avg_items_per_txn :=
        pdivN ((g.2.map (fun r => r.unit_quantity)).sum)
          (((g.2.map (fun r => r.transaction_set_id)).dedup).length) })

/-- Claim C10: every payment-type group contains at least one row, so its
distinct transaction-set count is at least 1 and the items-per-transaction
division is defined for every reachable group. -/
theorem payment_groups_nonzero (rows : List PayRow) (g : PaySummaryRow)
    (hg : g ∈ paymentSummary rows) :
    1 ≤ g.num_transactions ∧ g.avg_items_per_txn.isSome = true := by
  rcases List.mem_map.mp hg with ⟨p, hp, rfl⟩
  have hne := groupBy_mem_ne_nil (fun r : PayRow => r.payment_type) rows p hp
  have hmapne : (p.2.map (fun r => r.transaction_set_id)) ≠ [] := by
    intro h
    exact hne (List.map_eq_nil_iff.mp h)
  have hdedupne : ((p.2.map (fun r => r.transaction_set_id)).dedup) ≠ [] := by
    intro h
    exact hmapne ((List.dedup_eq_nil _).mp h)
  have hlen : 1 ≤ ((p.2.map (fun r => r.transaction_set_id)).dedup).length :=
    List.length_pos.mpr hdedupne
  refine ⟨hlen, ?_⟩
  simp only [pdivN]
  rw [if_neg (by omega)]
  rfl

/-- Joined table for the C10 witness: one cash row. -/
def w10rows : List PayRow :=
  [ { payment_type := "CASH", transaction_set_id := 1,
      grand_total_amount := 5, unit_quantity := 2,
      category := none, skupos_description := none } ]

/-- The summary row `w10rows` produces. -/
def w10g : PaySummaryRow :=
  { payment_type := "CASH", num_transactions := 1, total_spend := 5,
    avg_ticket := pdivN 5 1, total_items := 2,
    avg_items_per_txn := pdivN 2 1 }

/-- Witness for Claim C10: the concrete single-group summary has a positive
distinct-transaction count and a defined items-per-transaction value. -/
theorem payment_groups_nonzero_witness :
    (w10g ∈ paymentSummary w10rows) ∧
      1 ≤ w10g.num_transactions ∧ w10g.avg_items_per_txn.isSome = true := by
  have hmem : w10g ∈ paymentSummary w10rows := by
    have h : paymentSummary w10rows = [w10g] := rfl
    rw [h]
    exact List.mem_singleton.mpr rfl
  exact ⟨hmem, payment_groups_nonzero w10rows w10g hmem⟩

/-- (state, county, tract) geographic identifiers returned by a successful
geocoder call. -/
structure GeoTriple where
  state : String
  county : String
  tract : String
deriving DecidableEq

/-- One row of the `stores_df` selection fed to the geocode loop
(`STORE_ID` already canonicalized to a string). -/
structure StoreRow where
  store_id : String
  latitude : ℚ
  longitude : ℚ
  state : String
  city : String
deriving DecidableEq

/-- One row of the geocoded-store table `tract_df`. -/
structure GeoRow where
  store_id : String
  statefp : Option String
  countyfp : Option String
  tract : Option String
deriving DecidableEq

/-- `geocode_store`: the external call is an oracle; a successful response
yields the three geography fields, any failure (exception, missing field)
is caught and recorded as three nulls. -/
def geocodeStore (geo : ℚ → ℚ → Option GeoTriple) (lat lon : ℚ) :
    Option String × Option String × Option String :=
  match geo lat lon with
  | some t => (some t.state, some t.county, some t.tract)
  | none => (none, none, none)

/-- The geocode-stores loop: one appended result row per store row,
unconditionally. -/
def geocodeLoop (geo : ℚ → ℚ → Option GeoTriple) (stores : List StoreRow) :
    List GeoRow :=
  stores.map (fun s =>
    let g := geocodeStore geo s.latitude s.longitude
    { store_id := s.store_id, statefp := g.1, countyfp := g.2.1,
      tract := g.2.2 })

/-- A geocode-result row with null geography fields. -/
def isNullGeo (r : GeoRow) : Bool :=
  r.statefp.isNone && r.countyfp.isNone && r.tract.isNone

/-- Claim C4: a batch of N stores always yields exactly N geocode rows (the
loop never aborts), a row has null geography exactly when its store's call
failed, and hence the null rows number exactly the failed calls. -/
theorem geocode_batch_counts (geo : ℚ → ℚ → Option GeoTriple)
    (stores : List StoreRow) :
    (geocodeLoop geo stores).length = stores.length
    ∧ (geocodeLoop geo stores).map isNullGeo
        = stores.map (fun s => (geo s.latitude s.longitude).isNone)
    ∧ (geocodeLoop geo stores).countP isNullGeo
        = stores.countP (fun s => (geo s.latitude s.longitude).isNone) := by
  refine ⟨by simp [geocodeLoop], ?_, ?_⟩
  · induction stores with
    | nil => rfl
    | cons s t ih =>
        simp only [geocodeLoop, List.map_cons] at ih ⊢
        rw [ih]
        cases hg : geo s.latitude s.longitude <;>
          simp [geocodeStore, isNullGeo, hg]
  · induction stores with
    | nil => rfl
    | cons s t ih =>
        simp only [geocodeLoop, List.map_cons, List.countP_cons] at ih ⊢
        rw [ih]
        cases hg : geo s.latitude s.longitude <;>
          simp [geocodeStore, isNullGeo, hg]

/-- A (state, county, tract) triple. -/
abbrev GeoKey := String × String × String

/-- `unique_tracts`: the distinct fully-non-null geography triples of the
geocoded-store table. -/
def uniqueTracts (g : List GeoRow) : List GeoKey :=
  ((g.filter (fun r =>
      r.statefp.isSome && r.countyfp.isSome && r.tract.isSome)).map
    (fun r => (r.statefp.getD "", r.countyfp.getD "", r.tract.getD ""))).dedup

/-- Python truthiness of a `fetch_tract_acs` result: only a non-empty value
list counts (`if acs_values:` skips both a `None` failure and an empty
list). -/
def truthy (o : Option (List String)) : Bool :=
  match o with
  | some (_ :: _) => true
  | _ => false

/-- The fetch-tract-ACS loop: the external call is an oracle returning the
stripped value list of a response (`data[1][:-3]`) or `none` on any failure
or single-row response; a result row is appended only for a truthy value
list, failed triples are omitted entirely. -/
def acsLoop (acs : GeoKey → Option (List String)) :
    List GeoKey → List (GeoKey × List String)
  | [] => []
  | t :: ts =>
      match acs t with
      | some (v :: vs) => (t, v :: vs) :: acsLoop acs ts
      | _ => acsLoop acs ts

theorem acsLoop_length (acs : GeoKey → Option (List String)) :
    ∀ ts : List GeoKey,
      (acsLoop acs ts).length + ts.countP (fun t => !(truthy (acs t)))
        = ts.length := by
  intro ts
  induction ts with
  | nil => rfl
  | cons t ts ih =>
      cases hg : acs t with
      | none =>
          have htr : (!(truthy (none : Option (List String)))) = true := rfl
          simp only [acsLoop, List.countP_cons, List.length_cons, hg, htr,
            if_true]
          omega
      | some vs =>
          cases vs with
          | nil =>
              have htr : (!(truthy (some ([] : List String)))) = true := rfl
              simp only [acsLoop, List.countP_cons, List.length_cons, hg, htr,
                if_true]
              omega
          | cons v vs =>
              have htr : (!(truthy (some (v :: vs)))) = false := rfl
              simp only [acsLoop, List.countP_cons, List.length_cons, hg, htr,
                Bool.false_eq_true, if_false]
              omega

theorem acsLoop_mem (acs : GeoKey → Option (List String)) :
    ∀ (ts : List GeoKey) (r : GeoKey × List String), r ∈ acsLoop acs ts →
      acs r.1 = some r.2 ∧ r.2 ≠ [] := by
  intro ts
  induction ts with
  | nil => intro r hr; simp [acsLoop] at hr
  | cons t ts ih =>
      intro r hr
      cases hg : acs t with
      | none =>
          simp only [acsLoop, hg] at hr
          exact ih r hr
      | some vs =>
          cases vs with
          | nil =>
              simp only [acsLoop, hg] at hr
              exact ih r hr
          | cons v vs =>
              simp only [acsLoop, hg, List.mem_cons] at hr
              rcases hr with rfl | hr
              · exact ⟨hg, by simp⟩
              · exact ih r hr

/-- Claim C5: with K of the requested distinct triples failing (or returning
an empty response), the tract ACS stage yields exactly (requested − K)
rows; every produced row records a triple together with its successfully
fetched, non-empty value list. -/
theorem tract_acs_batch (acs : GeoKey → Option (List String))
    (g : List GeoRow) :
    (acsLoop acs (uniqueTracts g)).length
      = (uniqueTracts g).length
        - (uniqueTracts g).countP (fun t => !(truthy (acs t)))
    ∧ ∀ r ∈ acsLoop acs (uniqueTracts g), acs r.1 = some r.2 ∧ r.2 ≠ [] := by
  constructor
  · have h := acsLoop_length acs (uniqueTracts g)
    omega
  · exact acsLoop_mem acs (uniqueTracts g)

/-- Geocode table for the C5 witness: one geocoded store, one failed
store. -/
def w5geo : List GeoRow :=
  [ { store_id := "1", statefp := some "01", countyfp := some "001",
      tract := some "000100" },
    { store_id := "2", statefp := none, countyfp := none, tract := none } ]

/-- C5 witness oracle: the one requested tract succeeds with ten values. -/
def w5acs : GeoKey → Option (List String) := fun t =>
  if t = ("01", "001", "000100") then
    some ["10", "20", "30", "40", "50", "60", "70", "80", "90", "95"]
  else none

/-- The result row of the C5 witness batch. -/
def w5row : GeoKey × List String :=
  (("01", "001", "000100"),
    ["10", "20", "30", "40", "50", "60", "70", "80", "90", "95"])

/-- Witness for Claim C5: the concrete one-success batch stores the triple
with its fetched values. -/
theorem tract_acs_batch_witness :
    (w5row ∈ acsLoop w5acs (uniqueTracts w5geo)) ∧
      w5acs w5row.1 = some w5row.2 ∧ w5row.2 ≠ [] :=
  ⟨by decide, (tract_acs_batch w5acs w5geo).2 w5row (by decide)⟩

/-- The three persisted census cache files. -/
def censusCacheFiles : List String :=
  [ "data/census_tract_geocoded.parquet",
    "data/census_tract_acs.parquet",
    "data/census_county_acs.parquet" ]

/-- One row of the county ACS cache (only the join keys matter here). -/
structure CountyRow where
  state : String
  county : String
deriving DecidableEq

/-- The session state holding the stage-completion flags and intermediate
tables of the enrichment pipeline; `none` models a key absent from
`st.session_state`. -/
structure Session where
  tract_geocoded : Option Bool
  tract_df : Option (List GeoRow)
  acs_tract_fetched : Option Bool
  acs_tract_df : Option (List (GeoKey × List String))
  county_acs_fetched : Option Bool
  county_acs_df : Option (List CountyRow)
deriving DecidableEq

/-- The file system as the list of existing paths; `os.remove` guarded by
`os.path.exists` over the three cache files amounts to dropping them. -/
def clearedFiles (fs : List String) : List String :=
  fs.filter (fun f => !(decide (f ∈ censusCacheFiles)))

/-- The session after the clear button deletes every pipeline key. -/
def clearedSession : Session :=
  { tract_geocoded := none, tract_df := none, acs_tract_fetched := none,
    acs_tract_df := none, county_acs_fetched := none, county_acs_df := none }

/-- The Clear Census Cache handler: delete each existing cache file and
delete all six pipeline session keys. -/
def clearCensusCache (fs : List String) (_s : Session) :
    List String × Session :=
  (clearedFiles fs, clearedSession)

/-- The cache-probing initialization that runs when `tract_geocoded` is not
in the session state: load the geocode cache and mark the stage complete if
the file exists, else mark the pipeline not-geocoded. -/
def initTractStage (fs : List String) (cached : List GeoRow) (s : Session) :
    Session :=
  match s.tract_geocoded with
  | some _ => s
  | none =>
      if "data/census_tract_geocoded.parquet" ∈ fs then
        { s with tract_df := some cached, tract_geocoded := some true }
      else
        { s with tract_geocoded := some false }

/-- Claim C6: clearing the census cache removes all three cache files,
clears every stage-completion flag and intermediate table from the session,
and a subsequent run's cache probe puts the pipeline in the not-geocoded
state (it will re-execute geocoding instead of loading a cache). -/
theorem clear_cache_resets (fs : List String) (s : Session)
    (cached : List GeoRow) :
    (¬ "data/census_tract_geocoded.parquet" ∈ (clearCensusCache fs s).1)
    ∧ (¬ "data/census_tract_acs.parquet" ∈ (clearCensusCache fs s).1)
    ∧ (¬ "data/census_county_acs.parquet" ∈ (clearCensusCache fs s).1)
    ∧ (clearCensusCache fs s).2 = clearedSession
    ∧ (initTractStage (clearCensusCache fs s).1 cached
        (clearCensusCache fs s).2).tract_geocoded = some false
    ∧ (initTractStage (clearCensusCache fs s).1 cached
        (clearCensusCache fs s).2).tract_df = none := by
  have habs : ∀ x, x ∈ censusCacheFiles → ¬ x ∈ (clearCensusCache fs s).1 := by
    intro x hx hmem
    have h := List.mem_filter.mp hmem
    simp only [Bool.not_eq_true', decide_eq_false_iff_not] at h
    exact h.2 hx
  have h1 := habs "data/census_tract_geocoded.parquet" (by decide)
  have h1' : ¬ "data/census_tract_geocoded.parquet" ∈ clearedFiles fs := h1
  refine ⟨h1, habs _ (by decide), habs _ (by decide), rfl, ?_, ?_⟩
  · show (initTractStage (clearedFiles fs) cached clearedSession).tract_geocoded
      = some false
    simp only [initTractStage, clearedSession]
    rw [if_neg h1']
  · show (initTractStage (clearedFiles fs) cached clearedSession).tract_df
      = none
    simp only [initTractStage, clearedSession]
    rw [if_neg h1']

/-- Witness for Claim C6: after a clear on a concrete populated state, the
geocode cache file is gone. -/
theorem clear_cache_resets_witness :
    ¬ "data/census_tract_geocoded.parquet"
      ∈ (clearCensusCache censusCacheFiles clearedSession).1 :=
  (clear_cache_resets censusCacheFiles clearedSession []).1

/-- A store-identifier cell as polars sees it: integer dtype, float dtype,
or string dtype. -/
inductive Cell where
  | intV (n : ℤ)
  | floatV (q : ℚ)
  | strV (s : String)
deriving DecidableEq

/-- Truncation toward zero: the polars float→integer cast rule. -/
def ratTrunc (q : ℚ) : ℤ := if 0 ≤ q then ⌊q⌋ else ⌈q⌉

/-- Value of an all-digit character list; `none` when empty or when any
character is not a decimal digit. -/
def digitsVal (l : List Char) : Option ℕ :=
  match l with
  | [] => none
  | _ =>
      l.foldl (fun acc c =>
        acc.bind (fun a =>
          if c.isDigit then some (a * 10 + (c.toNat - 48)) else none))
        (some 0)

/-- The strict polars Utf8→Int64 cast: an optional sign followed by decimal
digits only; any other string (such as a float rendering with a decimal
point) fails the cast, modelled as `none` (polars raises a ComputeError). -/
def parseIntStr (s : String) : Option ℤ :=
  match s.data with
  | '-' :: rest => (digitsVal rest).map (fun n => -(n : ℤ))
  | '+' :: rest => (digitsVal rest).map (fun n => (n : ℤ))
  | l => (digitsVal l).map (fun n => (n : ℤ))

/-- The `cast(pl.Int64)` step of the store-identifier canonicalization, per
source dtype. -/
def castInt64 : Cell → Option ℤ
  | Cell.intV n => some n
  | Cell.floatV q => some (ratTrunc q)
  | Cell.strV s => parseIntStr s

/-- The full `cast(pl.Int64).cast(pl.Utf8)` canonicalization applied to
`STORE_ID` before the Store/Geocode/ACS/performance joins. -/
def canonKey (c : Cell) : Option String :=
  (castInt64 c).map (fun n => toString n)

/-- Counterexample to Claim C7: the canonicalization does not map the
string-dtype representation "42.0" to the key of integer 42 — the strict
integer cast fails on it (while a plain digit string does normalize). -/
theorem canon_string_float_fails :
    canonKey (Cell.intV 42) = some "42"
    ∧ canonKey (Cell.strV "42") = some "42"
    ∧ canonKey (Cell.strV "42.0") = none
    ∧ canonKey (Cell.strV "42.0") ≠ canonKey (Cell.intV 42) := by
  refine ⟨rfl, by decide, by decide, by decide⟩

/-- Claim C7 as amended: the integer-then-string canonicalization maps the
integer-dtype and float-dtype representations of the same identifier to the
same join key (and a plain digit string also normalizes, see the
counterexample theorem's second conjunct); a float-rendered string such as
"42.0" instead fails the strict integer cast. -/
theorem canon_int_float_agree (n : ℤ) :
    canonKey (Cell.intV n) = some (toString n)
    ∧ canonKey (Cell.floatV (n : ℚ)) = some (toString n) := by
  constructor
  · rfl
  · have h : ratTrunc (n : ℚ) = n := by
      unfold ratTrunc
      by_cases h0 : (0 : ℚ) ≤ (n : ℚ)
      · rw [if_pos h0, Int.floor_intCast]
      · rw [if_neg h0, Int.ceil_intCast]
    simp [canonKey, castInt64, h]
